import Mathlib

/-!
Deadline connection and socket dialer of pq-timeouts: a shallow embedding of
`conn.go` and `dialer.go`.

Everything the two files call but do not define (the wrapped `net.Conn`, the
clock, the TCP socket, `setsockopt`) lives in an environment: a state type `σ`
plus one transition function per external call (`Env σ`).  Every external call
goes through `World.call`, which runs the transition and appends the call to a
log, so that "which calls were made on the handle, in which order" is a
statement about the log.

External calls are taken to return (a panic inside the wrapped connection is
outside the model); receivers and the two connect functions are non-nil.
-/

namespace PqTimeouts

/-! ## Go values -/

/-- Go `time.Duration`: a signed count of nanoseconds. -/
abbrev Duration := Int

/-- Go `time.Time`, as nanoseconds since the zero instant.  `time.Time{}` is
`Time.zero`; `Add` is plain addition (the saturation of the standard library at
the ends of the representable range is not modelled). -/
structure Time where
  nsec : Int
  deriving DecidableEq, Repr

def Time.zero : Time := ⟨0⟩

def Time.Add (t : Time) (d : Duration) : Time := ⟨t.nsec + d⟩

/-- Go `[]byte` buffer handed to Read and Write. -/
abbrev Bytes := List (Fin 256)

/-- A non-nil `net.Addr`. -/
structure Addr where
  network : String
  str : String
  deriving DecidableEq, Repr

/-- The value of `unix.ECONNRESET` (a `syscall.Errno`) on Linux. -/
def ECONNRESET : Nat := 0x68

/-- Non-nil Go `error` interface values, by dynamic type.  The nil interface is
`none` in `Option GoError`.  Pointer identity of `errorString` values is not
modelled. -/
inductive GoError where
  /-- the sentinel `driver.ErrBadConn` -/
  | errBadConn
  /-- the value `nilConnErr{}` of conn.go -/
  | nilConnErr
  /-- a `*errors.errorString`, as built by `errors.New` or by `fmt.Errorf`
  without `%w`; `io.EOF` is `errorString "EOF"` -/
  | errorString (s : String)
  /-- a `syscall.Errno` -/
  | errno (e : Nat)
  /-- a non-nil `*os.SyscallError` with its fields `Syscall` and `Err` -/
  | syscallError (Syscall : String) (Err : Option GoError)
  /-- a nil `*os.SyscallError` stored in a non-nil interface -/
  | syscallErrorNil
  /-- a non-nil `*net.OpError` with its fields `Op`, `Net` and `Err`
  (`Source` and `Addr` are left out) -/
  | opError (Op Net : String) (Err : Option GoError)
  /-- a nil `*net.OpError` stored in a non-nil interface -/
  | opErrorNil
  /-- a value of any other dynamic type `typ`, with its message -/
  | other (typ msg : String)

/-- Go `error`: nil or a value. -/
abbrev Error := Option GoError

/-- The end-of-stream error `io.EOF`. -/
def EOF : GoError := .errorString "EOF"

/-- Dynamic type of a connection produced by a connect function. -/
inductive ConnType where
  /-- `*net.TCPConn` -/
  | TCPConn
  /-- any other implementation of `net.Conn`, with the text `%T` prints -/
  | other (name : String)
  deriving DecidableEq, Repr

/-- A non-nil `net.Conn` living in the environment: an identity plus its
dynamic type.  What its methods do is given by `Env`. -/
structure Handle where
  id : Nat
  typ : ConnType
  deriving DecidableEq, Repr

/-- A non-nil `*os.File` as returned by `(*net.TCPConn).File`. -/
structure OsFile where
  id : Nat
  deriving DecidableEq, Repr

/-! ## Environment, log and outcomes -/

/-- One external call, as recorded in the log. -/
inductive Event where
  | Read (c : Handle) (b : Bytes)
  | Write (c : Handle) (b : Bytes)
  | Close (c : Handle)
  | LocalAddr (c : Handle)
  | RemoteAddr (c : Handle)
  | SetDeadline (c : Handle) (t : Time)
  | SetReadDeadline (c : Handle) (t : Time)
  | SetWriteDeadline (c : Handle) (t : Time)
  | netDial (network address : String)
  | netDialTimeout (network address : String) (timeout : Duration)
  | SetKeepAlive (c : Handle) (keepalive : Bool)
  | File (c : Handle)
  | Fd (f : OsFile)
  | SetsockoptInt (fd level opt value : Int)
  deriving DecidableEq, Repr

/-- An event is a deadline-setting call on some handle. -/
def Event.isDeadline : Event → Bool
  | .SetDeadline _ _ => true
  | .SetReadDeadline _ _ => true
  | .SetWriteDeadline _ _ => true
  | _ => false

/-- Behaviour of everything outside the two files, over an arbitrary state.
The state also holds the memory an underlying Read writes into. -/
structure Env (σ : Type) where
  timeNow : σ → Time
  Read : Handle → Bytes → σ → (Int × Error) × σ
  Write : Handle → Bytes → σ → (Int × Error) × σ
  Close : Handle → σ → Error × σ
  LocalAddr : Handle → σ → Option Addr × σ
  RemoteAddr : Handle → σ → Option Addr × σ
  SetDeadline : Handle → Time → σ → Error × σ
  SetReadDeadline : Handle → Time → σ → Error × σ
  SetWriteDeadline : Handle → Time → σ → Error × σ
  SetKeepAlive : Handle → Bool → σ → Error × σ
  File : Handle → σ → (Option OsFile × Error) × σ
  Fd : OsFile → σ → Nat × σ
  SetsockoptInt : Int → Int → Int → Int → σ → Error × σ

/-- Environment state together with the log of external calls made so far. -/
structure World (σ : Type) where
  st : σ
  log : List Event

/-- Perform one external call: run its transition, record the event. -/
def World.call {σ α : Type} (w : World σ) (e : Event) (f : σ → α × σ) : α × World σ :=
  ((f w.st).1, ⟨(f w.st).2, w.log ++ [e]⟩)

/-- How a Go function ends: it returns, or it panics. -/
inductive Outcome (α : Type) where
  | ret (a : α)
  | panic
  deriving DecidableEq, Repr

/-! ## conn.go -/

/-- The struct `timeoutConn`; `conn = none` is the nil interface. -/
structure timeoutConn where
  conn : Option Handle
  readTimeout : Duration
  writeTimeout : Duration
  deriving DecidableEq, Repr

/-- Result of the block that follows the underlying call in Read and Write. -/
inductive ResetCheck where
  /-- the block returned `0, driver.ErrBadConn` -/
  | reset
  /-- control fell through the block -/
  | fallthrough
  /-- a type assertion or a nil dereference panicked -/
  | panic
  deriving DecidableEq, Repr

/-- The block
`if err != nil { if syserr, ok := err.(*net.OpError).Err.(*os.SyscallError); ok {
   if syserr.Err == unix.ECONNRESET { return 0, driver.ErrBadConn } } }`
that Read and Write both contain.  `err.(*net.OpError)` is the one-result form
of the type assertion, which panics when the dynamic type differs; reading
`.Err` through a nil pointer panics as well. -/
def checkReset : Error → ResetCheck
  | none => .fallthrough
  | some (.opError _ _ inner) =>
    match inner with
    | some (.syscallError _ e) =>
      match e with
      | some (.errno code) => if code = ECONNRESET then .reset else .fallthrough
      | _ => .fallthrough
    | some .syscallErrorNil => .panic
    | _ => .fallthrough
  | some _ => .panic

/-- First statement of Read on a present handle `c`:
`if t.readTimeout != 0 { t.conn.SetReadDeadline(time.Now().Add(t.readTimeout)) }`;
the setter's result is dropped.  The world it yields is the one the underlying
Read is issued in. -/
def timeoutConn.armRead {σ : Type} (E : Env σ) (t : timeoutConn) (c : Handle) (w : World σ) :
    World σ :=
  if t.readTimeout ≠ 0 then
    (w.call (.SetReadDeadline c ((E.timeNow w.st).Add t.readTimeout))
      (E.SetReadDeadline c ((E.timeNow w.st).Add t.readTimeout))).2
  else w

/-- First statement of Write on a present handle `c`, as `armRead`. -/
def timeoutConn.armWrite {σ : Type} (E : Env σ) (t : timeoutConn) (c : Handle) (w : World σ) :
    World σ :=
  if t.writeTimeout ≠ 0 then
    (w.call (.SetWriteDeadline c ((E.timeNow w.st).Add t.writeTimeout))
      (E.SetWriteDeadline c ((E.timeNow w.st).Add t.writeTimeout))).2
  else w

def timeoutConn.Read {σ : Type} (E : Env σ) (t : timeoutConn) (b : Bytes) (w : World σ) :
    Outcome (Int × Error) × World σ :=
  match t.conn with
  | some c =>
    let r := (t.armRead E c w).call (.Read c b) (E.Read c b)
    match checkReset r.1.2 with
    | .panic => (.panic, r.2)
    | .reset => (.ret (0, some .errBadConn), r.2)
    | .fallthrough =>
      let w3 :=
        if t.readTimeout ≠ 0 then
          (r.2.call (.SetReadDeadline c Time.zero) (E.SetReadDeadline c Time.zero)).2
        else r.2
      (.ret r.1, w3)
  | none => (.ret (0, some .nilConnErr), w)

def timeoutConn.Write {σ : Type} (E : Env σ) (t : timeoutConn) (b : Bytes) (w : World σ) :
    Outcome (Int × Error) × World σ :=
  match t.conn with
  | some c =>
    let r := (t.armWrite E c w).call (.Write c b) (E.Write c b)
    match checkReset r.1.2 with
    | .panic => (.panic, r.2)
    | .reset => (.ret (0, some .errBadConn), r.2)
    | .fallthrough =>
      let w3 :=
        if t.writeTimeout ≠ 0 then
          (r.2.call (.SetWriteDeadline c Time.zero) (E.SetWriteDeadline c Time.zero)).2
        else r.2
      (.ret r.1, w3)
  | none => (.ret (0, some .nilConnErr), w)

/-- Close has a pointer receiver and assigns `t.conn`, so the struct after the
call is part of the result. -/
def timeoutConn.Close {σ : Type} (E : Env σ) (t : timeoutConn) (w : World σ) :
    Error × timeoutConn × World σ :=
  match t.conn with
  | some c =>
    let r := w.call (.Close c) (E.Close c)
    match r.1 with
    | none => (none, { t with conn := none }, r.2)
    | some e => (some e, t, r.2)
  | none => (some .nilConnErr, t, w)

def timeoutConn.LocalAddr {σ : Type} (E : Env σ) (t : timeoutConn) (w : World σ) :
    Option Addr × World σ :=
  match t.conn with
  | some c => w.call (.LocalAddr c) (E.LocalAddr c)
  | none => (none, w)

def timeoutConn.RemoteAddr {σ : Type} (E : Env σ) (t : timeoutConn) (w : World σ) :
    Option Addr × World σ :=
  match t.conn with
  | some c => w.call (.RemoteAddr c) (E.RemoteAddr c)
  | none => (none, w)

def timeoutConn.SetDeadline {σ : Type} (E : Env σ) (t : timeoutConn) (time : Time)
    (w : World σ) : Error × World σ :=
  match t.conn with
  | some c => w.call (.SetDeadline c time) (E.SetDeadline c time)
  | none => (some .nilConnErr, w)

def timeoutConn.SetReadDeadline {σ : Type} (E : Env σ) (t : timeoutConn) (time : Time)
    (w : World σ) : Error × World σ :=
  match t.conn with
  | some c => w.call (.SetReadDeadline c time) (E.SetReadDeadline c time)
  | none => (some .nilConnErr, w)

def timeoutConn.SetWriteDeadline {σ : Type} (E : Env σ) (t : timeoutConn) (time : Time)
    (w : World σ) : Error × World σ :=
  match t.conn with
  | some c => w.call (.SetWriteDeadline c time) (E.SetWriteDeadline c time)
  | none => (some (.errorString "Connection is nil"), w)

/-! ## dialer.go -/

def idleKeepAliveStartSeconds : Int := 30

def keepAliveProbeIntervalSeconds : Int := 5

def keepAliveProbeCnt : Int := 6

/-- Linux value of `syscall.IPPROTO_TCP`. -/
def IPPROTO_TCP : Int := 6

/-- Linux value of `syscall.TCP_KEEPIDLE`. -/
def TCP_KEEPIDLE : Int := 4

/-- Linux value of `syscall.TCP_KEEPINTVL`. -/
def TCP_KEEPINTVL : Int := 5

/-- Linux value of `syscall.TCP_KEEPCNT`. -/
def TCP_KEEPCNT : Int := 6

/-- The struct `timeoutDialer`.  The two connect functions are stubbable
fields; they act on the environment and yield a `net.Conn` (nil or a handle)
and an error. -/
structure timeoutDialer (σ : Type) where
  netDial : String → String → σ → (Option Handle × Error) × σ
  netDialTimeout : String → String → Duration → σ → (Option Handle × Error) × σ
  readTimeout : Duration
  writeTimeout : Duration

/-- A non-nil `net.Conn` as returned by Dial and DialTimeout: the very object
a connect function produced, or a pointer to a fresh `timeoutConn`. -/
inductive Conn where
  | raw (c : Handle)
  | wrapped (t : timeoutConn)
  deriving DecidableEq, Repr

/-- The conversion `int(file.Fd())` of a `uintptr` on a 64-bit platform. -/
def uintptrToInt (v : Nat) : Int :=
  if v % 2 ^ 64 < 2 ^ 63 then ((v % 2 ^ 64 : Nat) : Int) else ((v % 2 ^ 64 : Nat) : Int) - 2 ^ 64

/-- The function `os.NewSyscallError`: nil stays nil, anything else is wrapped. -/
def NewSyscallError (syscall : String) (err : Error) : Error :=
  match err with
  | none => none
  | some e => some (.syscallError syscall (some e))

/-- The text `%T` prints for a `net.Conn`. -/
def typeName : Option Handle → String
  | none => "<nil>"
  | some ⟨_, .TCPConn⟩ => "*net.TCPConn"
  | some ⟨_, .other name⟩ => name

def setTCPSocketTimeoutFlags {σ : Type} (E : Env σ) (conn : Option Handle) (w : World σ) :
    Error × World σ :=
  match conn with
  | some ⟨i, .TCPConn⟩ =>
    let tcp : Handle := ⟨i, .TCPConn⟩
    let r1 := w.call (.SetKeepAlive tcp true) (E.SetKeepAlive tcp true)
    match r1.1 with
    | some e => (some e, r1.2)
    | none =>
      let r2 := r1.2.call (.File tcp) (E.File tcp)
      match r2.1.2 with
      | some e => (some e, r2.2)
      | none =>
        -- `(*os.File).Fd` on a nil file answers `^uintptr(0)` without a call
        let r3 : Nat × World σ :=
          match r2.1.1 with
          | some file => r2.2.call (.Fd file) (E.Fd file)
          | none => (2 ^ 64 - 1, r2.2)
        let fd := uintptrToInt r3.1
        let r4 := r3.2.call (.SetsockoptInt fd IPPROTO_TCP TCP_KEEPIDLE idleKeepAliveStartSeconds)
          (E.SetsockoptInt fd IPPROTO_TCP TCP_KEEPIDLE idleKeepAliveStartSeconds)
        match NewSyscallError "setsockopt" r4.1 with
        | some e => (some e, r4.2)
        | none =>
          let r5 := r4.2.call (.SetsockoptInt fd IPPROTO_TCP TCP_KEEPCNT keepAliveProbeCnt)
            (E.SetsockoptInt fd IPPROTO_TCP TCP_KEEPCNT keepAliveProbeCnt)
          match NewSyscallError "setsockopt" r5.1 with
          | some e => (some e, r5.2)
          | none =>
            let r6 := r5.2.call
              (.SetsockoptInt fd IPPROTO_TCP TCP_KEEPINTVL keepAliveProbeIntervalSeconds)
              (E.SetsockoptInt fd IPPROTO_TCP TCP_KEEPINTVL keepAliveProbeIntervalSeconds)
            match NewSyscallError "setsockopt" r6.1 with
            | some e => (some e, r6.2)
            | none => (none, r6.2)
  | other => (some (.errorString ("Bad conn type: " ++ typeName other)), w)

def timeoutDialer.Dial {σ : Type} (E : Env σ) (t : timeoutDialer σ) (network address : String)
    (w : World σ) : (Option Conn × Error) × World σ :=
  if t.readTimeout = 0 ∧ t.writeTimeout = 0 then
    let r := w.call (.netDial network address) (t.netDial network address)
    ((r.1.1.map Conn.raw, r.1.2), r.2)
  else
    let r := w.call (.netDial network address) (t.netDial network address)
    match r.1.2, r.1.1 with
    | none, some c =>
      let r2 := setTCPSocketTimeoutFlags E (some c) r.2
      match r2.1 with
      | some e => ((some (.raw c), some e), r2.2)
      | none => ((some (.wrapped ⟨some c, t.readTimeout, t.writeTimeout⟩), none), r2.2)
    | err, c => ((c.map Conn.raw, err), r.2)

def timeoutDialer.DialTimeout {σ : Type} (t : timeoutDialer σ) (network address : String)
    (timeout : Duration) (w : World σ) : (Option Conn × Error) × World σ :=
  if t.readTimeout = 0 ∧ t.writeTimeout = 0 then
    let r := w.call (.netDialTimeout network address timeout)
      (t.netDialTimeout network address timeout)
    ((r.1.1.map Conn.raw, r.1.2), r.2)
  else
    let r := w.call (.netDialTimeout network address timeout)
      (t.netDialTimeout network address timeout)
    match r.1.2, r.1.1 with
    | none, some c => ((some (.wrapped ⟨some c, t.readTimeout, t.writeTimeout⟩), none), r.2)
    | err, c => ((c.map Conn.raw, err), r.2)

/-! ## Operations of a `timeoutConn` as a state machine -/

/-- One method call on a `timeoutConn`. -/
inductive Op where
  | Read (b : Bytes)
  | Write (b : Bytes)
  | Close
  | LocalAddr
  | RemoteAddr
  | SetDeadline (time : Time)
  | SetReadDeadline (time : Time)
  | SetWriteDeadline (time : Time)

/-- What a method call gives back. -/
inductive Ret where
  | io (r : Outcome (Int × Error))
  | err (e : Error)
  | addr (a : Option Addr)

/-- Run one method; the struct changes only through Close. -/
def timeoutConn.step {σ : Type} (E : Env σ) (op : Op) (t : timeoutConn) (w : World σ) :
    Ret × timeoutConn × World σ :=
  match op with
  | .Read b => (.io (t.Read E b w).1, t, (t.Read E b w).2)
  | .Write b => (.io (t.Write E b w).1, t, (t.Write E b w).2)
  | .Close => (.err (t.Close E w).1, (t.Close E w).2.1, (t.Close E w).2.2)
  | .LocalAddr => (.addr (t.LocalAddr E w).1, t, (t.LocalAddr E w).2)
  | .RemoteAddr => (.addr (t.RemoteAddr E w).1, t, (t.RemoteAddr E w).2)
  | .SetDeadline time => (.err (t.SetDeadline E time w).1, t, (t.SetDeadline E time w).2)
  | .SetReadDeadline time =>
    (.err (t.SetReadDeadline E time w).1, t, (t.SetReadDeadline E time w).2)
  | .SetWriteDeadline time =>
    (.err (t.SetWriteDeadline E time w).1, t, (t.SetWriteDeadline E time w).2)

/-- Run a sequence of method calls, one after the other. -/
def timeoutConn.run {σ : Type} (E : Env σ) : List Op → timeoutConn → World σ →
    timeoutConn × World σ
  | [], t, w => (t, w)
  | op :: ops, t, w => timeoutConn.run E ops (t.step E op w).2.1 (t.step E op w).2.2

/-! ## Test doubles -/

/-- A stateless test double: Read and Write answer `rw`, Close answers `cl`,
the keepalive calls and the deadline setters succeed, the clock shows 1000. -/
def stubEnv (rw : Int × Error) (cl : Error) : Env Unit where
  timeNow := fun _ => ⟨1000⟩
  Read := fun _ _ s => (rw, s)
  Write := fun _ _ s => (rw, s)
  Close := fun _ s => (cl, s)
  LocalAddr := fun _ s => (some ⟨"tcp", "127.0.0.1:5432"⟩, s)
  RemoteAddr := fun _ s => (some ⟨"tcp", "10.0.0.1:5432"⟩, s)
  SetDeadline := fun _ _ s => (none, s)
  SetReadDeadline := fun _ _ s => (none, s)
  SetWriteDeadline := fun _ _ s => (none, s)
  SetKeepAlive := fun _ _ s => (none, s)
  File := fun _ s => ((some ⟨3⟩, none), s)
  Fd := fun _ s => (3, s)
  SetsockoptInt := fun _ _ _ _ s => (none, s)

/-- A stateful test double: its state is the list of the calls it has served,
oldest first.  Read and Write answer the length of the buffer with no error,
every other call succeeds, the clock shows 1000. -/
def journalEnv : Env (List Event) where
  timeNow := fun _ => ⟨1000⟩
  Read := fun c b s => ((b.length, none), s ++ [.Read c b])
  Write := fun c b s => ((b.length, none), s ++ [.Write c b])
  Close := fun c s => (none, s ++ [.Close c])
  LocalAddr := fun c s => (none, s ++ [.LocalAddr c])
  RemoteAddr := fun c s => (none, s ++ [.RemoteAddr c])
  SetDeadline := fun c t s => (none, s ++ [.SetDeadline c t])
  SetReadDeadline := fun c t s => (none, s ++ [.SetReadDeadline c t])
  SetWriteDeadline := fun c t s => (none, s ++ [.SetWriteDeadline c t])
  SetKeepAlive := fun c k s => (none, s ++ [.SetKeepAlive c k])
  File := fun c s => ((some ⟨3⟩, none), s ++ [.File c])
  Fd := fun f s => (3, s ++ [.Fd f])
  SetsockoptInt := fun fd l o v s => (none, s ++ [.SetsockoptInt fd l o v])

/-- The untouched world of the test double. -/
def world0 : World Unit := ⟨(), []⟩

/-- A TCP connection and a non-TCP test double. -/
def tcpHandle : Handle := ⟨1, .TCPConn⟩

def fakeHandle : Handle := ⟨2, .other "*pqtimeouts.fakeConn"⟩

/-- The reset-by-peer error as the net package reports it. -/
def resetErr : GoError :=
  .opError "read" "tcp" (some (.syscallError "read" (some (.errno ECONNRESET))))

/-- A deadline-exceeded error as the net package reports it. -/
def timeoutErr : GoError :=
  .opError "read" "tcp" (some (.other "*poll.DeadlineExceededError" "i/o timeout"))

/-- A dialer whose connect functions answer a fixed pair. -/
def stubDialer (r : Option Handle × Error) (rt wt : Duration) : timeoutDialer Unit where
  netDial := fun _ _ s => (r, s)
  netDialTimeout := fun _ _ _ s => (r, s)
  readTimeout := rt
  writeTimeout := wt

/-! ## Reset translation (C1) -/

theorem checkReset_reset (op net sc : String) :
    checkReset (some (.opError op net (some (.syscallError sc (some (.errno ECONNRESET))))))
      = .reset := by
  simp [checkReset]

/-- C1: on a present handle, when the underlying Read (resp. Write) reports an
error that is a `*net.OpError` whose `Err` is an `*os.SyscallError` whose `Err`
is `ECONNRESET`, Read (resp. Write) returns exactly `(0, driver.ErrBadConn)`,
for every count the underlying call reported and every timeout setting. -/
theorem C1_reset_returns_ErrBadConn {σ : Type} (E : Env σ) (t : timeoutConn) (c : Handle)
    (b : Bytes) (w : World σ) (op net sc : String) (hc : t.conn = some c) :
    ((E.Read c b (t.armRead E c w).st).1.2
        = some (.opError op net (some (.syscallError sc (some (.errno ECONNRESET))))) →
      (t.Read E b w).1 = .ret (0, some .errBadConn)) ∧
    ((E.Write c b (t.armWrite E c w).st).1.2
        = some (.opError op net (some (.syscallError sc (some (.errno ECONNRESET))))) →
      (t.Write E b w).1 = .ret (0, some .errBadConn)) := by
  constructor
  · intro h
    simp [timeoutConn.Read, hc, World.call, h, checkReset_reset]
  · intro h
    simp [timeoutConn.Write, hc, World.call, h, checkReset_reset]

theorem C1_reset_returns_ErrBadConn_witness :
    ((⟨some tcpHandle, 5, 0⟩ : timeoutConn).Read (stubEnv (7, some resetErr) none) [1, 2]
        world0).1 = .ret (0, some .errBadConn) ∧
    ((⟨some tcpHandle, 5, 0⟩ : timeoutConn).Write (stubEnv (7, some resetErr) none) [1, 2]
        world0).1 = .ret (0, some .errBadConn) :=
  ⟨(C1_reset_returns_ErrBadConn (stubEnv (7, some resetErr) none) ⟨some tcpHandle, 5, 0⟩
      tcpHandle [1, 2] world0 "read" "tcp" "read" rfl).1 rfl,
   (C1_reset_returns_ErrBadConn (stubEnv (7, some resetErr) none) ⟨some tcpHandle, 5, 0⟩
      tcpHandle [1, 2] world0 "read" "tcp" "read" rfl).2 rfl⟩

/-! ## Other errors (C2) -/

/-- Whenever the reset block falls through, Read hands back the pair of the
underlying call. -/
theorem Read_of_fallthrough {σ : Type} (E : Env σ) (t : timeoutConn) (c : Handle) (b : Bytes)
    (w : World σ) (hc : t.conn = some c)
    (h : checkReset (E.Read c b (t.armRead E c w).st).1.2 = .fallthrough) :
    (t.Read E b w).1 = .ret (E.Read c b (t.armRead E c w).st).1 := by
  simp [timeoutConn.Read, hc, World.call, h]

/-- As `Read_of_fallthrough`, for Write. -/
theorem Write_of_fallthrough {σ : Type} (E : Env σ) (t : timeoutConn) (c : Handle) (b : Bytes)
    (w : World σ) (hc : t.conn = some c)
    (h : checkReset (E.Write c b (t.armWrite E c w).st).1.2 = .fallthrough) :
    (t.Write E b w).1 = .ret (E.Write c b (t.armWrite E c w).st).1 := by
  simp [timeoutConn.Write, hc, World.call, h]

/-- A deadline-exceeded `*net.OpError` is handed back as it came. -/
theorem Read_timeoutErr_passes :
    ((⟨some tcpHandle, 5, 0⟩ : timeoutConn).Read (stubEnv (3, some timeoutErr) none) [1, 2]
        world0).1 = .ret (3, some timeoutErr) := by
  simp [timeoutConn.Read, World.call, stubEnv, timeoutErr, checkReset]

/-- C2, at the failing input: the underlying Read (resp. Write) of a present
handle reports `(0, io.EOF)`, an error that is not a `*net.OpError`.  The
one-result type assertion `err.(*net.OpError)` panics, so neither method
returns the pair `(0, io.EOF)`; the same holds with a timeout configured. -/
theorem C2_panics_on_EOF :
    ((⟨some tcpHandle, 0, 0⟩ : timeoutConn).Read (stubEnv (0, some EOF) none) [1, 2]
        world0).1 = .panic ∧
    ((⟨some tcpHandle, 0, 0⟩ : timeoutConn).Write (stubEnv (0, some EOF) none) [1, 2]
        world0).1 = .panic ∧
    ((⟨some tcpHandle, 5, 5⟩ : timeoutConn).Read (stubEnv (0, some EOF) none) [1, 2]
        world0).1 ≠ .ret (0, some EOF) ∧
    ((⟨some tcpHandle, 5, 5⟩ : timeoutConn).Write (stubEnv (0, some EOF) none) [1, 2]
        world0).1 ≠ .ret (0, some EOF) := by
  simp [timeoutConn.Read, timeoutConn.Write, World.call, stubEnv, EOF, checkReset]

/-! ## Deadlines around the underlying call (C3, C4) -/

/-- C3: on a present handle with read timeout `D > 0` (resp. write timeout
`D > 0`), a Read (resp. Write) whose underlying call, issued in the state the
deadline setter left, reports `(n, nil)` returns `(n, nil)`, adds to the log
exactly SetReadDeadline(now + D), Read(b), SetReadDeadline(zero time) (resp.
the write counterparts), in this order, and leaves the environment in the
state these three calls, run one after the other, produce. -/
theorem C3_deadline_set_call_clear {σ : Type} (E : Env σ) (t : timeoutConn) (c : Handle)
    (b : Bytes) (w : World σ) (n : Int) (hc : t.conn = some c) :
    (0 < t.readTimeout →
      (E.Read c b
          (E.SetReadDeadline c ((E.timeNow w.st).Add t.readTimeout) w.st).2).1 = (n, none) →
      t.Read E b w =
        (.ret (n, none),
          ⟨(E.SetReadDeadline c Time.zero
              (E.Read c b
                (E.SetReadDeadline c ((E.timeNow w.st).Add t.readTimeout) w.st).2).2).2,
            w.log ++
              [.SetReadDeadline c ((E.timeNow w.st).Add t.readTimeout), .Read c b,
               .SetReadDeadline c Time.zero]⟩)) ∧
    (0 < t.writeTimeout →
      (E.Write c b
          (E.SetWriteDeadline c ((E.timeNow w.st).Add t.writeTimeout) w.st).2).1 = (n, none) →
      t.Write E b w =
        (.ret (n, none),
          ⟨(E.SetWriteDeadline c Time.zero
              (E.Write c b
                (E.SetWriteDeadline c ((E.timeNow w.st).Add t.writeTimeout) w.st).2).2).2,
            w.log ++
              [.SetWriteDeadline c ((E.timeNow w.st).Add t.writeTimeout), .Write c b,
               .SetWriteDeadline c Time.zero]⟩)) := by
  constructor
  · intro hD h
    have hne : t.readTimeout ≠ 0 := ne_of_gt hD
    simp [timeoutConn.Read, timeoutConn.armRead, hc, hne, World.call, h, checkReset]
  · intro hD h
    have hne : t.writeTimeout ≠ 0 := ne_of_gt hD
    simp [timeoutConn.Write, timeoutConn.armWrite, hc, hne, World.call, h, checkReset]

theorem C3_deadline_set_call_clear_witness :
    (0 : Int) < 5 ∧ (0 : Int) < 9 ∧
    (⟨some tcpHandle, 5, 9⟩ : timeoutConn).Read journalEnv [1, 2] ⟨[], []⟩
      = (.ret (2, none),
          ⟨[.SetReadDeadline tcpHandle ⟨1005⟩, .Read tcpHandle [1, 2],
              .SetReadDeadline tcpHandle ⟨0⟩],
            [.SetReadDeadline tcpHandle ⟨1005⟩, .Read tcpHandle [1, 2],
              .SetReadDeadline tcpHandle ⟨0⟩]⟩) ∧
    (⟨some tcpHandle, 5, 9⟩ : timeoutConn).Write journalEnv [1, 2] ⟨[], []⟩
      = (.ret (2, none),
          ⟨[.SetWriteDeadline tcpHandle ⟨1009⟩, .Write tcpHandle [1, 2],
              .SetWriteDeadline tcpHandle ⟨0⟩],
            [.SetWriteDeadline tcpHandle ⟨1009⟩, .Write tcpHandle [1, 2],
              .SetWriteDeadline tcpHandle ⟨0⟩]⟩) :=
  ⟨by decide, by decide,
   (C3_deadline_set_call_clear journalEnv ⟨some tcpHandle, 5, 9⟩ tcpHandle [1, 2] ⟨[], []⟩ 2
      rfl).1 (by decide) rfl,
   (C3_deadline_set_call_clear journalEnv ⟨some tcpHandle, 5, 9⟩ tcpHandle [1, 2] ⟨[], []⟩ 2
      rfl).2 (by decide) rfl⟩

/-- C4: on a present handle with read timeout 0, Read adds to the log the one
underlying Read and nothing else, so no deadline setter is called, whatever the
underlying Read reports (also when the reset block then panics); the same for
Write with write timeout 0. -/
theorem C4_no_deadline_when_disabled {σ : Type} (E : Env σ) (t : timeoutConn) (c : Handle)
    (b : Bytes) (w : World σ) (hc : t.conn = some c) :
    (t.readTimeout = 0 →
      (t.Read E b w).2.log = w.log ++ [.Read c b] ∧
      ((t.Read E b w).2.log.drop w.log.length).filter Event.isDeadline = []) ∧
    (t.writeTimeout = 0 →
      (t.Write E b w).2.log = w.log ++ [.Write c b] ∧
      ((t.Write E b w).2.log.drop w.log.length).filter Event.isDeadline = []) := by
  constructor
  · intro h0
    have hlog : (t.Read E b w).2.log = w.log ++ [.Read c b] := by
      simp only [timeoutConn.Read, hc, World.call, timeoutConn.armRead, h0]
      split <;> simp
    refine ⟨hlog, ?_⟩
    rw [hlog]
    simp [Event.isDeadline]
  · intro h0
    have hlog : (t.Write E b w).2.log = w.log ++ [.Write c b] := by
      simp only [timeoutConn.Write, hc, World.call, timeoutConn.armWrite, h0]
      split <;> simp
    refine ⟨hlog, ?_⟩
    rw [hlog]
    simp [Event.isDeadline]

theorem C4_no_deadline_when_disabled_witness :
    ((⟨some tcpHandle, 0, 0⟩ : timeoutConn).Read (stubEnv (0, some EOF) none) [1, 2]
        world0).2.log = [.Read tcpHandle [1, 2]] ∧
    ((⟨some tcpHandle, 0, 0⟩ : timeoutConn).Write (stubEnv (4, some timeoutErr) none) [1, 2]
        world0).2.log = [.Write tcpHandle [1, 2]] :=
  ⟨((C4_no_deadline_when_disabled (stubEnv (0, some EOF) none) ⟨some tcpHandle, 0, 0⟩
      tcpHandle [1, 2] world0 rfl).1 rfl).1,
   ((C4_no_deadline_when_disabled (stubEnv (4, some timeoutErr) none) ⟨some tcpHandle, 0, 0⟩
      tcpHandle [1, 2] world0 rfl).2 rfl).1⟩

/-! ## Close and the absent handle (C5, C6, C7) -/

/-- C5: on a present handle `c`, Close adds to the log the one underlying Close
and returns its result; afterwards the handle is absent exactly when that
result is nil: on nil the struct is the old one with the handle cleared, on an
error the struct (handle and both timeouts) is unchanged. -/
theorem C5_Close_present {σ : Type} (E : Env σ) (t : timeoutConn) (c : Handle) (w : World σ)
    (hc : t.conn = some c) :
    (t.Close E w).2.2.log = w.log ++ [.Close c] ∧
    (t.Close E w).2.2.st = (E.Close c w.st).2 ∧
    (t.Close E w).1 = (E.Close c w.st).1 ∧
    ((t.Close E w).2.1.conn = none ↔ (E.Close c w.st).1 = none) ∧
    ((E.Close c w.st).1 = none →
      (t.Close E w).2.1 = ⟨none, t.readTimeout, t.writeTimeout⟩) ∧
    ((E.Close c w.st).1 ≠ none → (t.Close E w).2.1 = t) := by
  simp only [timeoutConn.Close, hc, World.call]
  cases h : (E.Close c w.st).1 <;> simp [hc]

theorem C5_Close_present_witness :
    ((⟨some tcpHandle, 5, 9⟩ : timeoutConn).Close (stubEnv (0, none) none) world0).1 = none ∧
    ((⟨some tcpHandle, 5, 9⟩ : timeoutConn).Close (stubEnv (0, none) none) world0).2.1
      = ⟨none, 5, 9⟩ ∧
    ((⟨some tcpHandle, 5, 9⟩ : timeoutConn).Close (stubEnv (0, none) (some EOF)) world0).2.1
      = ⟨some tcpHandle, 5, 9⟩ :=
  ⟨(C5_Close_present (stubEnv (0, none) none) ⟨some tcpHandle, 5, 9⟩ tcpHandle world0
      rfl).2.2.1,
   (C5_Close_present (stubEnv (0, none) none) ⟨some tcpHandle, 5, 9⟩ tcpHandle world0
      rfl).2.2.2.2.1 rfl,
   (C5_Close_present (stubEnv (0, none) (some EOF)) ⟨some tcpHandle, 5, 9⟩ tcpHandle world0
      rfl).2.2.2.2.2 (by simp [stubEnv])⟩

/-- On an absent handle no method changes the struct or the world. -/
theorem step_absent {σ : Type} (E : Env σ) (op : Op) (t : timeoutConn) (w : World σ)
    (h : t.conn = none) : (t.step E op w).2 = (t, w) := by
  cases op <;>
    simp [timeoutConn.step, timeoutConn.Read, timeoutConn.Write, timeoutConn.Close,
      timeoutConn.LocalAddr, timeoutConn.RemoteAddr, timeoutConn.SetDeadline,
      timeoutConn.SetReadDeadline, timeoutConn.SetWriteDeadline, h]

/-- On an absent handle no sequence of methods changes the struct or the
world. -/
theorem run_absent {σ : Type} (E : Env σ) (ops : List Op) (t : timeoutConn) (w : World σ)
    (h : t.conn = none) : t.run E ops w = (t, w) := by
  induction ops with
  | nil => rfl
  | cons op ops ih =>
    simp only [timeoutConn.run]
    rw [step_absent E op t w h]
    exact ih

/-- C6: a successful Close leaves the handle absent; and once the handle is
absent, every sequence of method calls leaves the struct as it is (handle still
absent) and the world as it is (no call on any handle, nothing logged), while
Close returns `nilConnErr{}`, Read and Write return `(0, nilConnErr{})` without
panicking, and LocalAddr and RemoteAddr return a nil address. -/
theorem C6_absent_handle {σ : Type} (E : Env σ) (t : timeoutConn) (w : World σ)
    (h : t.conn = none) :
    (∀ (t0 : timeoutConn) (w0 : World σ), (t0.Close E w0).1 = none →
      (t0.Close E w0).2.1.conn = none) ∧
    (∀ ops : List Op, t.run E ops w = (t, w)) ∧
    t.Close E w = (some .nilConnErr, t, w) ∧
    (∀ b, t.Read E b w = (.ret (0, some .nilConnErr), w)) ∧
    (∀ b, t.Write E b w = (.ret (0, some .nilConnErr), w)) ∧
    t.LocalAddr E w = (none, w) ∧
    t.RemoteAddr E w = (none, w) := by
  refine ⟨?_, fun ops => run_absent E ops t w h, ?_, ?_, ?_, ?_, ?_⟩
  · intro t0 w0
    simp only [timeoutConn.Close]
    cases hc : t0.conn with
    | none => simp
    | some c =>
      simp only [World.call]
      cases (E.Close c w0.st).1 <;> simp [hc]
  all_goals
    simp [timeoutConn.Read, timeoutConn.Write, timeoutConn.Close, timeoutConn.LocalAddr,
      timeoutConn.RemoteAddr, h]

theorem C6_absent_handle_witness :
    (((⟨some tcpHandle, 5, 9⟩ : timeoutConn).Close (stubEnv (0, none) none) world0).2.1).Close
        (stubEnv (0, none) none)
        ((⟨some tcpHandle, 5, 9⟩ : timeoutConn).Close (stubEnv (0, none) none) world0).2.2
      = (some .nilConnErr, ⟨none, 5, 9⟩, ⟨(), [.Close tcpHandle]⟩) ∧
    (⟨none, 5, 9⟩ : timeoutConn).run (stubEnv (0, none) none)
        [.Read [1], .SetDeadline ⟨7⟩, .Close, .Write [2], .LocalAddr] world0
      = (⟨none, 5, 9⟩, world0) :=
  ⟨(C6_absent_handle (stubEnv (0, none) none)
      ((⟨some tcpHandle, 5, 9⟩ : timeoutConn).Close (stubEnv (0, none) none) world0).2.1
      ((⟨some tcpHandle, 5, 9⟩ : timeoutConn).Close (stubEnv (0, none) none) world0).2.2
      rfl).2.2.1,
   (C6_absent_handle (stubEnv (0, none) none) ⟨none, 5, 9⟩ world0 rfl).2.1 _⟩

/-- C7, at the failing input: on an absent handle SetDeadline and
SetReadDeadline return `nilConnErr{}`, but SetWriteDeadline returns the
`fmt.Errorf("Connection is nil")` value, which is not `nilConnErr{}`. -/
theorem C7_SetWriteDeadline_absent_differs :
    ((⟨none, 5, 9⟩ : timeoutConn).SetDeadline (stubEnv (0, none) none) ⟨7⟩ world0).1
      = some .nilConnErr ∧
    ((⟨none, 5, 9⟩ : timeoutConn).SetReadDeadline (stubEnv (0, none) none) ⟨7⟩ world0).1
      = some .nilConnErr ∧
    ((⟨none, 5, 9⟩ : timeoutConn).SetWriteDeadline (stubEnv (0, none) none) ⟨7⟩ world0).1
      = some (.errorString "Connection is nil") ∧
    ((⟨none, 5, 9⟩ : timeoutConn).SetWriteDeadline (stubEnv (0, none) none) ⟨7⟩ world0).1
      ≠ some .nilConnErr := by
  simp [timeoutConn.SetDeadline, timeoutConn.SetReadDeadline, timeoutConn.SetWriteDeadline]

/-- On a present handle each of the three setters makes the one corresponding
call on the handle, with the same time, and returns its result. -/
theorem setters_present {σ : Type} (E : Env σ) (t : timeoutConn) (c : Handle) (time : Time)
    (w : World σ) (hc : t.conn = some c) :
    t.SetDeadline E time w
      = ((E.SetDeadline c time w.st).1,
          ⟨(E.SetDeadline c time w.st).2, w.log ++ [.SetDeadline c time]⟩) ∧
    t.SetReadDeadline E time w
      = ((E.SetReadDeadline c time w.st).1,
          ⟨(E.SetReadDeadline c time w.st).2, w.log ++ [.SetReadDeadline c time]⟩) ∧
    t.SetWriteDeadline E time w
      = ((E.SetWriteDeadline c time w.st).1,
          ⟨(E.SetWriteDeadline c time w.st).2, w.log ++ [.SetWriteDeadline c time]⟩) := by
  simp [timeoutConn.SetDeadline, timeoutConn.SetReadDeadline, timeoutConn.SetWriteDeadline,
    hc, World.call]

/-! ## Dial and DialTimeout (C8, C9, C10) -/

/-- Keepalive tuning of a connection that is not a `*net.TCPConn` fails with
the type-mismatch error and touches nothing. -/
theorem setTCPSocketTimeoutFlags_other {σ : Type} (E : Env σ) (i : Nat) (name : String)
    (w : World σ) :
    setTCPSocketTimeoutFlags E (some ⟨i, .other name⟩) w
      = (some (.errorString ("Bad conn type: " ++ name)), w) := by
  simp [setTCPSocketTimeoutFlags, typeName]

/-- C8 as stated fails: a dialer with read timeout 1 whose connect function
reports `(nil, "connection refused")` returns that pair, not a decorated
connection with a nil error. -/
theorem C8_counterexample :
    ((stubDialer (none, some (.errorString "connection refused")) 1 0).Dial
        (stubEnv (0, none) none) "tcp" "db:5432" world0).1
      = (none, some (.errorString "connection refused")) ∧
    ¬ ∃ tc : timeoutConn,
      ((stubDialer (none, some (.errorString "connection refused")) 1 0).Dial
        (stubEnv (0, none) none) "tcp" "db:5432" world0).1 = (some (.wrapped tc), none) := by
  simp [timeoutDialer.Dial, stubDialer, World.call]

/-- C8, amended: with both timeouts zero, Dial adds to the log the one call of
the plain connect function (no keepalive call) and returns exactly the pair it
produced; with a nonzero timeout, when the connect function produced a non-nil
connection `c` with a nil error and keepalive tuning of `c` succeeds, Dial
returns with a nil error a `timeoutConn` whose handle is `c` and whose timeouts
are the dialer's, having called the connect function once, before the tuning. -/
theorem C8_Dial_amended {σ : Type} (E : Env σ) (t : timeoutDialer σ) (network address : String)
    (w : World σ) :
    (t.readTimeout = 0 ∧ t.writeTimeout = 0 →
      (t.Dial E network address w).1
        = ((t.netDial network address w.st).1.1.map Conn.raw,
            (t.netDial network address w.st).1.2) ∧
      (t.Dial E network address w).2
        = ⟨(t.netDial network address w.st).2, w.log ++ [.netDial network address]⟩) ∧
    (¬ (t.readTimeout = 0 ∧ t.writeTimeout = 0) →
      ∀ c : Handle, (t.netDial network address w.st).1 = (some c, none) →
        (setTCPSocketTimeoutFlags E (some c)
          ⟨(t.netDial network address w.st).2, w.log ++ [.netDial network address]⟩).1 = none →
        (t.Dial E network address w).1
          = (some (.wrapped ⟨some c, t.readTimeout, t.writeTimeout⟩), none) ∧
        (t.Dial E network address w).2
          = (setTCPSocketTimeoutFlags E (some c)
              ⟨(t.netDial network address w.st).2, w.log ++ [.netDial network address]⟩).2) := by
  constructor
  · intro h0
    simp [timeoutDialer.Dial, h0, World.call]
  · intro hn c hc htune
    simp only [timeoutDialer.Dial, hn, World.call, hc, if_false, htune]
    exact ⟨trivial, trivial⟩

theorem C8_Dial_amended_witness :
    ((stubDialer (some fakeHandle, none) 0 0).Dial (stubEnv (0, none) none) "tcp" "db:5432"
        world0) = ((some (.raw fakeHandle), none), ⟨(), [.netDial "tcp" "db:5432"]⟩) ∧
    ((stubDialer (some tcpHandle, none) 5 0).Dial (stubEnv (0, none) none) "tcp" "db:5432"
        world0).1 = (some (.wrapped ⟨some tcpHandle, 5, 0⟩), none) :=
  ⟨Prod.ext
    ((C8_Dial_amended (stubEnv (0, none) none) (stubDialer (some fakeHandle, none) 0 0)
      "tcp" "db:5432" world0).1 ⟨rfl, rfl⟩).1
    ((C8_Dial_amended (stubEnv (0, none) none) (stubDialer (some fakeHandle, none) 0 0)
      "tcp" "db:5432" world0).1 ⟨rfl, rfl⟩).2,
   ((C8_Dial_amended (stubEnv (0, none) none) (stubDialer (some tcpHandle, none) 5 0)
      "tcp" "db:5432" world0).2 (by simp [stubDialer]) tcpHandle rfl rfl).1⟩

/-- C9: when at least one timeout is nonzero and the plain connect function
produced a non-nil connection `c` that is not a `*net.TCPConn`, with a nil
error, keepalive tuning of `c` fails with "Bad conn type: <type>" without any
call (world unchanged), and Dial returns the raw `c` together with that error,
the log holding the one connect call and nothing else. -/
theorem C9_Dial_non_TCP {σ : Type} (E : Env σ) (t : timeoutDialer σ) (network address : String)
    (w : World σ) (i : Nat) (name : String)
    (hn : ¬ (t.readTimeout = 0 ∧ t.writeTimeout = 0))
    (hc : (t.netDial network address w.st).1 = (some ⟨i, .other name⟩, none)) :
    (∀ w1 : World σ, setTCPSocketTimeoutFlags E (some ⟨i, .other name⟩) w1
      = (some (.errorString ("Bad conn type: " ++ name)), w1)) ∧
    (t.Dial E network address w).1
      = (some (.raw ⟨i, .other name⟩), some (.errorString ("Bad conn type: " ++ name))) ∧
    (t.Dial E network address w).2
      = ⟨(t.netDial network address w.st).2, w.log ++ [.netDial network address]⟩ := by
  refine ⟨fun w1 => setTCPSocketTimeoutFlags_other E i name w1, ?_, ?_⟩
  · simp only [timeoutDialer.Dial, hn, World.call, hc, if_false, setTCPSocketTimeoutFlags_other]
  · simp only [timeoutDialer.Dial, hn, World.call, hc, if_false, setTCPSocketTimeoutFlags_other]

theorem C9_Dial_non_TCP_witness :
    ((stubDialer (some fakeHandle, none) 0 3).Dial (stubEnv (0, none) none) "tcp" "db:5432"
        world0)
      = ((some (.raw fakeHandle), some (.errorString "Bad conn type: *pqtimeouts.fakeConn")),
          ⟨(), [.netDial "tcp" "db:5432"]⟩) :=
  Prod.ext
    (C9_Dial_non_TCP (stubEnv (0, none) none) (stubDialer (some fakeHandle, none) 0 3)
      "tcp" "db:5432" world0 2 "*pqtimeouts.fakeConn" (by simp [stubDialer]) rfl).2.1
    (C9_Dial_non_TCP (stubEnv (0, none) none) (stubDialer (some fakeHandle, none) 0 3)
      "tcp" "db:5432" world0 2 "*pqtimeouts.fakeConn" (by simp [stubDialer]) rfl).2.2

/-- C10: DialTimeout always adds to the log the one call of the timeout-aware
connect function, with the timeout it was given, and nothing else (no keepalive
call).  With both timeouts zero, or when the connect function reports an error
or a nil connection, it returns the pair the connect function produced;
otherwise it returns, with a nil error, a `timeoutConn` holding the produced
connection and the dialer's timeouts, whatever the type of the connection: on
a non-TCP connection, where Dial returns the type-mismatch error, DialTimeout
still wraps. -/
theorem C10_DialTimeout {σ : Type} (E : Env σ) (t : timeoutDialer σ)
    (network address : String) (timeout : Duration) (w : World σ) :
    (t.DialTimeout network address timeout w).2
      = ⟨(t.netDialTimeout network address timeout w.st).2,
          w.log ++ [.netDialTimeout network address timeout]⟩ ∧
    ((t.readTimeout = 0 ∧ t.writeTimeout = 0) ∨
        (t.netDialTimeout network address timeout w.st).1.2 ≠ none ∨
        (t.netDialTimeout network address timeout w.st).1.1 = none →
      (t.DialTimeout network address timeout w).1
        = ((t.netDialTimeout network address timeout w.st).1.1.map Conn.raw,
            (t.netDialTimeout network address timeout w.st).1.2)) ∧
    (¬ (t.readTimeout = 0 ∧ t.writeTimeout = 0) →
      ∀ c : Handle, (t.netDialTimeout network address timeout w.st).1 = (some c, none) →
        (t.DialTimeout network address timeout w).1
          = (some (.wrapped ⟨some c, t.readTimeout, t.writeTimeout⟩), none)) ∧
    (¬ (t.readTimeout = 0 ∧ t.writeTimeout = 0) →
      ∀ (i : Nat) (name : String),
        (t.netDialTimeout network address timeout w.st).1 = (some ⟨i, .other name⟩, none) →
        t.netDial network address w.st = t.netDialTimeout network address timeout w.st →
        (t.DialTimeout network address timeout w).1
          = (some (.wrapped ⟨some ⟨i, .other name⟩, t.readTimeout, t.writeTimeout⟩), none) ∧
        (t.Dial E network address w).1
          = (some (.raw ⟨i, .other name⟩),
              some (.errorString ("Bad conn type: " ++ name)))) := by
  refine ⟨?_, ?_, ?_, ?_⟩
  · simp only [timeoutDialer.DialTimeout, World.call]
    split
    · rfl
    · split <;> rfl
  · intro h
    simp only [timeoutDialer.DialTimeout, World.call]
    split
    · rfl
    · split
      · rename_i c he hcn
        rcases h with h | h | h
        · contradiction
        · exact absurd he h
        · rw [hcn] at h; cases h
      · rfl
  · intro hn c hc
    simp only [timeoutDialer.DialTimeout, hn, World.call, hc, if_false]
  · intro hn i name hc hsame
    constructor
    · simp only [timeoutDialer.DialTimeout, hn, World.call, hc, if_false]
    · simp only [timeoutDialer.Dial, hn, World.call, hsame, hc, if_false,
        setTCPSocketTimeoutFlags_other]

theorem C10_DialTimeout_witness :
    ((stubDialer (none, some (.errorString "i/o timeout")) 5 0).DialTimeout "tcp" "db:5432" 30
        world0).1 = (none, some (.errorString "i/o timeout")) ∧
    ((stubDialer (some fakeHandle, none) 5 0).DialTimeout "tcp" "db:5432" 30 world0).1
      = (some (.wrapped ⟨some fakeHandle, 5, 0⟩), none) ∧
    ((stubDialer (some fakeHandle, none) 5 0).Dial (stubEnv (0, none) none) "tcp" "db:5432"
        world0).1
      = (some (.raw fakeHandle), some (.errorString "Bad conn type: *pqtimeouts.fakeConn")) :=
  ⟨(C10_DialTimeout (stubEnv (0, none) none)
      (stubDialer (none, some (.errorString "i/o timeout")) 5 0) "tcp" "db:5432" 30
      world0).2.1 (Or.inr (Or.inl (by simp [stubDialer]))),
   (C10_DialTimeout (stubEnv (0, none) none) (stubDialer (some fakeHandle, none) 5 0)
      "tcp" "db:5432" 30 world0).2.2.1 (by simp [stubDialer]) fakeHandle rfl,
   ((C10_DialTimeout (stubEnv (0, none) none) (stubDialer (some fakeHandle, none) 5 0)
      "tcp" "db:5432" 30 world0).2.2.2 (by simp [stubDialer]) 2 "*pqtimeouts.fakeConn"
      rfl rfl).2⟩

end PqTimeouts
